import Mathlib

/-!
Verification of the darksky-api weather aggregation service.

This file gives a shallow embedding, in Lean 4, of the parts of the
repository that the specification's claims talk about:

* `darksky-api.py` — the request handler `forecast` (coordinate
  validation, cache fallback, empty-alert stripping);
* `DarkskyAPIFunctions.py` — `getKeyValue`, the tolerant nested-field
  accessor, modelled over a JSON value type with Python's dynamic
  semantics (including the runtime errors Python would raise);
* `NOAAWeatherAPI.py` — icon mapping, unit conversions, the humidity
  computations, alert assembly, and the sources flag;
* `ClimacellWeatherAPI.py` — icon/condition mapping and the full
  post-fetch document transformation (currently / minutely / hourly /
  daily / sources sections).

Numbers are modelled by `ℚ` (CPython floats are binary, but every value
appearing in the claims is exactly representable or rounds identically),
Unix timestamps by `ℤ`.  Python's `round` is banker's rounding, modelled
by `roundHalfEven`.  ISO8601 parsing (`isodate`, `datetime.strptime`) is
an external collaborator; fields that the source stores only after
parsing are modelled as the already-parsed timestamps.  Fallible Python
code (uncaught `IndexError` / `KeyError` / `TypeError` / `NameError`)
is modelled with `Except PyErr`.
-/

/-- Runtime errors that the Python source can raise on the paths modelled
here. -/
inductive PyErr where
  | indexError
  | keyError
  | typeError
  | nameError
deriving DecidableEq, Repr

/-- Floor of a rational, written computably (Mathlib's `⌊·⌋` does not
kernel-reduce). -/
def ratFloor (q : ℚ) : ℤ := q.num / (q.den : ℤ)

/-- Python 3's `round` to an integer: round-half-to-even (banker's
rounding). -/
def roundHalfEven (q : ℚ) : ℤ :=
  if q - (ratFloor q : ℚ) < 1/2 then ratFloor q
  else if q - (ratFloor q : ℚ) > 1/2 then ratFloor q + 1
  else if ratFloor q % 2 = 0 then ratFloor q else ratFloor q + 1

/-- Python's `round(x)` (no digits argument), as a rational. -/
def pyRound0 (q : ℚ) : ℚ := (roundHalfEven q : ℚ)

/-- Python's `round(x, 2)`. -/
def pyRound2 (q : ℚ) : ℚ := (roundHalfEven (q * 100) : ℚ) / 100

/-- Celsius→Fahrenheit as used at every conversion point of
`NOAAWeatherAPI.py` (lines 307–309, 389, 399, 409, 557, 575, 604):
`round((x * 9 / 5) + 32, 2)`. -/
def cToF (c : ℚ) : ℚ := pyRound2 (c * 9 / 5 + 32)

/-- Metres/second→miles/hour as used at every conversion point of
`NOAAWeatherAPI.py` (lines 312–313, 429, 439, 677, 723):
`round(x * 2.23694, 2)`. -/
def msToMph (v : ℚ) : ℚ := pyRound2 (v * (223694/100000))

/-!
## JSON values and `getKeyValue` (`DarkskyAPIFunctions.py`, lines 42–74)

`getKeyValue` walks a JSON document under Python's dynamic semantics, so
the model must reproduce Python's behaviour for `len`, `in`, and
subscripting on every JSON shape, including the runtime errors.
-/

/-- A JSON value as Python's `json` module produces it (`None`, `bool`,
number, `str`, `list`, `dict` with string keys). -/
inductive JVal where
  | null
  | bool (b : Bool)
  | num (q : ℚ)
  | str (s : String)
  | arr (xs : List JVal)
  | obj (kvs : List (String × JVal))

/-- Python truthiness of a JSON value: `None`, `False`, `0`, `''`, `[]`,
and `` are falsy. -/
def truthy : JVal → Bool
  | .null => false
  | .bool b => b
  | .num q => q != 0
  | .str s => s ≠ ""
  | .arr xs => !xs.isEmpty
  | .obj kvs => !kvs.isEmpty

/-- Does the list of characters start with the given run? -/
def charsPre : List Char → List Char → Bool
  | [], _ => true
  | _ :: _, [] => false
  | a :: as, b :: bs => a = b && charsPre as bs

/-- Substring test on character lists (Python's `needle in haystack` for
strings). -/
def charsSub (needle : List Char) : List Char → Bool
  | [] => needle.isEmpty
  | l@(_ :: rest) => charsPre needle l || charsSub needle rest

/-- Python's `len(x)`: defined for `list`, `dict` and `str`, a
`TypeError` otherwise. -/
def pyLen : JVal → Except PyErr ℤ
  | .arr xs => .ok xs.length
  | .obj kvs => .ok kvs.length
  | .str s => .ok s.length
  | _ => .error .typeError

/-- Python's `x[i]` for an integer subscript.  Lists and strings accept
negative indices counted from the end and raise `IndexError` out of
range; a dict with string keys raises `KeyError` for any integer key;
other values raise `TypeError`. -/
def pyIndex : JVal → ℤ → Except PyErr JVal
  | .arr xs, i =>
    if 0 ≤ i then
      match xs.get? i.toNat with
      | some v => .ok v
      | none => .error .indexError
    else
      match xs.get? (xs.length - (-i).toNat) with
      | some v => if (-i).toNat ≤ xs.length then .ok v else .error .indexError
      | none => .error .indexError
  | .str s, i =>
    if 0 ≤ i then
      match s.toList.get? i.toNat with
      | some c => .ok (.str (String.mk [c]))
      | none => .error .indexError
    else
      match s.toList.get? (s.length - (-i).toNat) with
      | some c => if (-i).toNat ≤ s.length then .ok (.str (String.mk [c])) else .error .indexError
      | none => .error .indexError
  | .obj _, _ => .error .keyError
  | _, _ => .error .typeError

/-- Python's `k in x` for a string `k`: key test on dicts, membership on
lists, substring test on strings, `TypeError` otherwise. -/
def pyContains : JVal → String → Except PyErr Bool
  | .obj kvs, s => .ok (kvs.any (fun p => p.1 = s))
  | .arr xs, s => .ok (xs.any (fun v => match v with | .str t => t = s | _ => false))
  | .str t, s => .ok (charsSub s.toList t.toList)
  | _, _ => .error .typeError

/-- Python's `x[k]` for a string subscript after a successful `k in x`
test: dict lookup succeeds, list or string subscripting by a string is a
`TypeError`. -/
def pyGetField : JVal → String → Except PyErr JVal
  | .obj kvs, s =>
    match kvs.lookup s with
    | some v => .ok v
    | none => .error .keyError
  | _, _ => .error .typeError

/-- A step of `getKeyValue`'s key list: a numeric index or a field name. -/
inductive JKey where
  | idx (i : ℤ)
  | name (s : String)
deriving DecidableEq, Repr

/-- The key walk of `getKeyValue` (lines 60–70).  An integer key is
guarded only by `key < len(...)`; a missing field or an index at or
beyond the length aborts the walk, returning Python `None`. -/
def walkKeys : JVal → List JKey → Except PyErr JVal
  | v, [] => .ok v
  | v, .idx i :: ks => do
    let n ← pyLen v
    if i < n then
      let v' ← pyIndex v i
      walkKeys v' ks
    else
      .ok .null
  | v, .name s :: ks => do
    let b ← pyContains v s
    if b then
      let v' ← pyGetField v s
      walkKeys v' ks
    else
      .ok .null

/-- The function `DarkskyAPIFunctions.getKeyValue` (lines 42–74): walk the key list,
then apply the optional transform only when the final value is truthy. -/
def getKeyValue (root : JVal) (keys : List JKey) (func : Option (JVal → JVal)) :
    Except PyErr JVal := do
  let v ← walkKeys root keys
  match func with
  | some f => if truthy v then .ok (f v) else .ok v
  | none => .ok v

/-!
## Icon and condition mapping

`NOAAWeatherAPI._mapIcons` extracts a token from the icon URL with the
regular expressions `(?<=icons/).+?(?=,)` and `(?<=icons/).+?(?=\?)`
and looks it up; `ClimacellWeatherAPI._mapIcons` and
`_mapClimacellWeatherCode` are direct table lookups.  On the
unknown-code path the two Climacell functions reference names that are
not defined in their scope (`noaa_icon` at lines 80–81, `flask_app` at
line 123 of `ClimacellWeatherAPI.py`), so Python raises `NameError`
there instead of returning.
-/

/-- Shortest non-empty run of non-newline characters ending right before
the first occurrence of `stop` — the token matched by `.+?(?=stop)` at a
fixed start position. -/
def tokenTo (stop : Char) : List Char → Option (List Char)
  | [] => none
  | c :: rest =>
    if c = '\n' then none
    else
      match rest with
      | [] => none
      | d :: _ =>
        if d = stop then some [c]
        else (tokenTo stop rest).map (fun tk => c :: tk)

/-- Leftmost match of `(?<=icons/).+?(?=stop)`: scan for an occurrence
of the marker `icons/` from which a token can be extracted. -/
def searchIconToken (stop : Char) : List Char → Option (List Char)
  | [] => none
  | cs@(_ :: rest) =>
    if charsPre ("icons/".toList) cs then
      match tokenTo stop (cs.drop 6) with
      | some tok => some tok
      | none => searchIconToken stop rest
    else
      searchIconToken stop rest

/-- The NOAA icon translation table (`NOAAWeatherAPI.py` lines 49–96). -/
def noaaIconTable : List (String × String) := [
  ("land/day/bkn", "partly-cloudy-day"),
  ("land/day/bkn/rain_showers", "rain"),
  ("land/day/bkn/snow", "snow"),
  ("land/day/few", "clear-day"),
  ("land/day/fog", "fog"),
  ("land/day/fog/wind_sct", "fog"),
  ("land/day/ovc", "cloudy"),
  ("land/day/rain", "rain"),
  ("land/day/rain/sct", "rain"),
  ("land/day/rain_showers", "rain"),
  ("land/day/sct", "partly-cloudy-day"),
  ("land/day/sct/rain", "rain"),
  ("land/day/sct/rain_showers", "rain"),
  ("land/day/sct/snow", "snow"),
  ("land/day/skc", "partly-cloudy-day"),
  ("land/day/snow", "snow"),
  ("land/day/snow/bkn", "snow"),
  ("land/day/snow/snow", "snow"),
  ("land/day/tsra", "rain"),
  ("land/day/wind_bkn", "wind"),
  ("land/day/wind_few", "wind"),
  ("land/day/wind_ovc", "wind"),
  ("land/day/wind_sct", "wind"),
  ("land/night/bkn", "partly-cloudy-night"),
  ("land/night/bkn/rain_showers", "rain"),
  ("land/night/bkn/snow", "snow"),
  ("land/night/few", "clear-night"),
  ("land/night/fog", "fog"),
  ("land/night/fog/wind_sct", "fog"),
  ("land/night/ovc", "cloudy"),
  ("land/night/rain", "rain"),
  ("land/night/rain/sct", "rain"),
  ("land/night/rain_showers", "rain"),
  ("land/night/sct", "partly-cloudy-night"),
  ("land/night/sct/rain", "rain"),
  ("land/night/sct/rain_showers", "rain"),
  ("land/night/sct/snow", "snow"),
  ("land/night/skc", "partly-cloudy-night"),
  ("land/night/snow/snow", "snow"),
  ("land/night/snow", "snow"),
  ("land/night/snow/bkn", "snow"),
  ("land/night/tsra", "rain"),
  ("land/night/wind_bkn", "wind"),
  ("land/night/wind_few", "wind"),
  ("land/night/wind_ovc", "wind"),
  ("land/night/wind_sct", "wind")]

/-- The function `NOAAWeatherAPI._mapIcons` (lines 26–115): extract the icon token
from the URL (first trying the comma-terminated pattern, then the
question-mark-terminated one); unknown tokens and unparsable URLs log a
warning and fall through to `return ''`. -/
def noaaMapIcons (icon : String) : String :=
  match searchIconToken ',' icon.toList with
  | some tok =>
    match noaaIconTable.lookup (String.mk tok) with
    | some v => v
    | none => ""
  | none =>
    match searchIconToken '?' icon.toList with
    | some tok =>
      match noaaIconTable.lookup (String.mk tok) with
      | some v => v
      | none => ""
    | none => ""

/-- The Climacell icon translation table (`ClimacellWeatherAPI.py`
lines 50–74). -/
def ccIconTable : List (String × String) := [
  ("freezing_rain_heavy", "sleet"),
  ("freezing_rain", "sleet"),
  ("freezing_rain_light", "sleet"),
  ("freezing_drizzle", "sleet"),
  ("ice_pellets_heavy", "sleet"),
  ("ice_pellets", "sleet"),
  ("ice_pellets_light", "sleet"),
  ("snow_heavy", "snow"),
  ("snow", "snow"),
  ("snow_light", "snow"),
  ("flurries", "snow"),
  ("tstorm", "rain"),
  ("rain_heavy", "rain"),
  ("rain", "rain"),
  ("rain_light", "rain"),
  ("drizzle", "rain"),
  ("fog_light", "fog"),
  ("fog", "fog"),
  ("cloudy", "cloudy"),
  ("mostly_cloudy", "cloudy"),
  ("partly_cloudy", "partly-cloudy-day"),
  ("mostly_clear", "clear-day"),
  ("clear", "clear-day")]

/-- The function `ClimacellWeatherAPI._mapIcons` (lines 27–83): a known condition
label maps through the table; an unknown label reaches the warning call
at lines 80–81, which formats the message with `noaa_icon` — a name that
is not defined anywhere in this module — so Python raises `NameError`
before the function can return its fallback empty string. -/
def ccMapIcons (icon : String) : Except PyErr String :=
  match ccIconTable.lookup icon with
  | some v => .ok v
  | none => .error .nameError

/-- The Climacell condition-text table (`ClimacellWeatherAPI.py`
lines 93–117), typos included. -/
def ccWeatherCodeTable : List (String × String) := [
  ("freezing_rain_heavy", "Heavt Freezing Rain"),
  ("freezing_rain", "Freezing Rain"),
  ("freezing_rain_light", "Light Freezing Rain"),
  ("freezing_drizzle", "Freezing Drizzle"),
  ("ice_pellets_heavy", "Heavy Sleet"),
  ("ice_pellets", "Sleet"),
  ("ice_pellets_light", "Light Sleet"),
  ("snow_heavy", "Heavy Snow"),
  ("snow", "Snow"),
  ("snow_light", "Light Snow"),
  ("flurries", "Snow Flurries"),
  ("tstorm", "Thundestorms"),
  ("rain_heavy", "Heavy Rain"),
  ("rain", "Rain"),
  ("rain_light", "Light Rain"),
  ("drizzle", "Drizzle"),
  ("fog_light", "Light Fog"),
  ("fog", "Fog"),
  ("cloudy", "Cloudy"),
  ("mostly_cloudy", "Mostly Cloudy"),
  ("partly_cloudy", "Partly Cloudy"),
  ("mostly_clear", "Mostly Clear"),
  ("clear", "Clear")]

/-- The function `ClimacellWeatherAPI._mapClimacellWeatherCode` (lines 85–125): a
falsy code returns the empty string; a known code maps through the
table; an unknown truthy code reaches line 123, which calls
`flask_app.logger.warning` — but `flask_app` is not a parameter of this
function, so Python raises `NameError`. -/
def mapCCWeatherCode (code : String) : Except PyErr String :=
  if code = "" then .ok ""
  else
    match ccWeatherCodeTable.lookup code with
    | some v => .ok v
    | none => .error .nameError

/-!
## Field-transform helpers and humidity computations

The adapters fetch fields through `getKeyValue(obj, [..., 'value'], f)`.
In the structured document model below, such a field is an
`Option ℚ` / `Option String` holding the nested value when the walk
succeeds; the helpers reproduce `getKeyValue`'s rule that the transform
`f` runs only when the extracted value is truthy.
-/

/-- Transform applied through `getKeyValue` to a numeric field: skipped
when the value is `0` (falsy in Python). -/
def gkvQ (v : Option ℚ) (f : ℚ → ℚ) : Option ℚ :=
  v.map (fun x => if x = 0 then x else f x)

/-- Transform applied through `getKeyValue` to a string field: skipped
when the value is the empty string. -/
def gkvStr (v : Option String) (f : String → String) : Option String :=
  v.map (fun s => if s = "" then s else f s)

/-- Fallible transform applied through `getKeyValue` to a string field
(the Climacell summary/icon mappers can raise `NameError`). -/
def gkvStrE (v : Option String) (f : String → Except PyErr String) :
    Except PyErr (Option String) :=
  match v with
  | none => .ok none
  | some s => if s = "" then .ok (some s) else (f s).map some

/-- The `precipitation_type` transform `lambda x: None if x == 'none'
else x` (applied only to truthy values). -/
def precipTypeT (v : Option String) : Option String :=
  v.bind (fun s => if s = "" then some s else if s = "none" then none else some s)

/-- The NOAA `currently.humidity` expression (`NOAAWeatherAPI.py` line
310): `round(100 - (5 * (temp - dewpoint)), 2)` — a dew-point-spread
approximation of relative humidity on the 0–100 percent scale — guarded
by the truthiness of both readings, so it is `None` when either reading
is missing or equal to `0`. -/
def noaaCurrentlyHumidity (temp dewp : Option ℚ) : Option ℚ :=
  match temp, dewp with
  | some t, some d =>
    if t ≠ 0 ∧ d ≠ 0 then some (pyRound2 (100 - 5 * (t - d))) else none
  | _, _ => none

/-- The Climacell `currently.humidity` / `currently.cloudCover`
transform (`ClimacellWeatherAPI.py` lines 272 and 277):
`lambda x: round(x / 100)` — integer rounding, no digits argument. -/
def ccCurrentlyRound (v : Option ℚ) : Option ℚ :=
  gkvQ v (fun x => pyRound0 (x / 100))

/-- The Climacell hourly percent→fraction transform
(`ClimacellWeatherAPI.py` lines 338, 343, 348):
`lambda x: round(x / 100, 2)`. -/
def ccFraction2 (v : Option ℚ) : Option ℚ :=
  gkvQ v (fun x => pyRound2 (x / 100))

/-- The NOAA hourly humidity value (`NOAAWeatherAPI.py` line 419):
`round(value / 100, 2)` — note the source stores it under the misspelled
key `humdity`. -/
def noaaHourlyHumidity (v : ℚ) : ℚ := pyRound2 (v / 100)

/-- The NOAA daily humidity value (`NOAAWeatherAPI.py` line 622): the
time-weighted percent average divided by 100, rounded at the point of
conversion. -/
def noaaDailyHumidity (total totalHours : ℚ) : ℚ :=
  pyRound2 (total / totalHours / 100)

/-- The NOAA daily wind-speed value (`NOAAWeatherAPI.py` line 677):
`round(total / total_hours * 2.23694, 2)`. -/
def noaaDailyWindSpeed (total totalHours : ℚ) : ℚ :=
  pyRound2 (total / totalHours * (223694/100000))

/-- The NOAA daily dew-point value (`NOAAWeatherAPI.py` line 604):
`round((total / total_hours * 9 / 5) + 32, 2)`. -/
def noaaDailyDewPoint (total totalHours : ℚ) : ℚ :=
  pyRound2 (total / totalHours * 9 / 5 + 32)

/-!
## The unified forecast document

The structured model of the JSON document that `NOAAWeatherAPI.get`
builds and `ClimacellWeatherAPI.get` mutates in place.  A field that the
source either omits or stores as `None` is an `Option` (`getKeyValue`
returns `None` for both shapes, and no claim distinguishes them).
Timestamps are already-parsed Unix seconds.
-/

/-- A `currently` observation. -/
structure Obs where
  time : Option ℤ := none
  summary : Option String := none
  icon : Option String := none
  precipIntensity : Option ℚ := none
  precipType : Option String := none
  temperature : Option ℚ := none
  apparentTemperature : Option ℚ := none
  dewPoint : Option ℚ := none
  humidity : Option ℚ := none
  pressure : Option ℚ := none
  windSpeed : Option ℚ := none
  windGust : Option ℚ := none
  windBearing : Option ℚ := none
  cloudCover : Option ℚ := none
  visibility : Option ℚ := none
  ozone : Option ℚ := none
deriving DecidableEq, Repr

/-- A `minutely.data` entry (`ClimacellWeatherAPI.py` lines 294–302; the
`precipIntesityError` spelling is the source's). -/
structure MinEntry where
  time : ℤ
  precipIntensity : Option ℚ := none
  precipIntesityError : Option ℚ := none
  precipProbability : Option ℚ := none
  precipType : Option String := none
deriving DecidableEq, Repr

/-- An `hourly.data` entry (NOAA skeleton entries populate a subset of
these fields; the Climacell overwrite populates them all). -/
structure HourEntry where
  time : ℤ
  summary : Option String := none
  icon : Option String := none
  precipIntensity : Option ℚ := none
  precipProbability : Option ℚ := none
  precipType : Option String := none
  temperature : Option ℚ := none
  apparentTemperature : Option ℚ := none
  dewPoint : Option ℚ := none
  humidity : Option ℚ := none
  pressure : Option ℚ := none
  windSpeed : Option ℚ := none
  windGust : Option ℚ := none
  windBearing : Option ℚ := none
  cloudCover : Option ℚ := none
  visibility : Option ℚ := none
  ozone : Option ℚ := none
deriving DecidableEq, Repr

/-- A `daily.data` entry. -/
structure DayEntry where
  time : ℤ
  summary : Option String := none
  icon : Option String := none
  sunriseTime : Option ℤ := none
  sunsetTime : Option ℤ := none
  moonPhase : Option ℚ := none
  precipIntensity : Option ℚ := none
  precipIntensityMax : Option ℚ := none
  precipIntensityMaxTime : Option ℤ := none
  precipProbability : Option ℚ := none
  temperatureHigh : Option ℚ := none
  temperatureHighTime : Option ℤ := none
  temperatureLow : Option ℚ := none
  temperatureLowTime : Option ℤ := none
  apparentTemperatureHigh : Option ℚ := none
  apparentTemperatureHighTime : Option ℤ := none
  apparentTemperatureLow : Option ℚ := none
  apparentTemperatureLowTime : Option ℤ := none
  dewPoint : Option ℚ := none
  humidity : Option ℚ := none
  pressure : Option ℚ := none
  windSpeed : Option ℚ := none
  windGust : Option ℚ := none
  windGustTime : Option ℤ := none
  windBearing : Option ℚ := none
  cloudCover : Option ℚ := none
  visibility : Option ℚ := none
  temperatureMin : Option ℚ := none
  temperatureMinTime : Option ℤ := none
  temperatureMax : Option ℚ := none
  temperatureMaxTime : Option ℤ := none
  apparentTemperatureMin : Option ℚ := none
  apparentTemperatureMinTime : Option ℤ := none
  apparentTemperatureMax : Option ℚ := none
  apparentTemperatureMaxTime : Option ℤ := none
deriving DecidableEq, Repr

/-- An alert in the unified schema (`NOAAWeatherAPI.py` lines 757–765). -/
structure Alert where
  title : Option String := none
  regions : List String := []
  severity : Option String := none
  time : Option ℤ := none
  expires : Option ℤ := none
  description : Option String := none
  url : Option String := none
deriving DecidableEq, Repr

/-- The `minutely` block.  `data := none` models the block being the
empty dict `{}` that `NOAAWeatherAPI.get` initialises. -/
structure MinutelyBlock where
  summary : Option String := none
  icon : Option String := none
  data : Option (List MinEntry) := none
deriving DecidableEq, Repr

/-- The `hourly` block. -/
structure HourlyBlock where
  summary : Option String := none
  icon : Option String := none
  data : Option (List HourEntry) := none
deriving DecidableEq, Repr

/-- The `daily` block. -/
structure DailyBlock where
  summary : Option String := none
  icon : Option String := none
  data : Option (List DayEntry) := none
deriving DecidableEq, Repr

/-- The `flags` object. -/
structure Flags where
  sources : List String := []
  units : String := "us"
  nearestStation : Option ℚ := none
deriving DecidableEq, Repr

/-- The unified forecast document. -/
structure Doc where
  latitude : ℚ := 0
  longitude : ℚ := 0
  timezone : Option String := none
  offset : Option ℚ := none
  currently : Option Obs := none
  minutely : MinutelyBlock := {}
  hourly : HourlyBlock := {}
  daily : DailyBlock := {}
  alerts : Option (List Alert) := none
  flags : Flags := {}
deriving DecidableEq, Repr

/-!
## The Climacell adapter (`ClimacellWeatherAPI.get`, lines 138–527)

The four fetched products are modelled as already-parsed payloads; any
fetch failing (or returning a falsy payload) is the `none` case of
`ccGet`'s `fetch` argument, which reproduces the early returns at lines
186–226.  On the success path the adapter mutates the document in five
sections, modelled as one step function per section.  Timestamp strings
are modelled as their parsed Unix values (`_epochTime`,
`_dailyEpochTime` and `isodate` are external parsing collaborators).
-/

/-- The Climacell realtime product (fields reached through
`getKeyValue(cc_current_obj, [name, 'value'], ...)`; a missing field or
a missing `value` subfield is `none`). -/
structure CCCurrent where
  observation_time : Option ℤ := none
  weather_code : Option String := none
  precipitation : Option ℚ := none
  precipitation_type : Option String := none
  temp : Option ℚ := none
  feels_like : Option ℚ := none
  dewpoint : Option ℚ := none
  humidity : Option ℚ := none
  baro_pressure : Option ℚ := none
  wind_speed : Option ℚ := none
  wind_gust : Option ℚ := none
  wind_direction : Option ℚ := none
  cloud_cover : Option ℚ := none
  visibility : Option ℚ := none
  o3 : Option ℚ := none
deriving DecidableEq, Repr

/-- One entry of the Climacell minute nowcast.  `observation_time` is
subscripted directly at line 295, so the model makes it a required
field. -/
structure CCMinute where
  observation_time : ℤ
  precipitation : Option ℚ := none
  precipitation_type : Option String := none
deriving DecidableEq, Repr

/-- One entry of the Climacell hourly forecast. -/
structure CCHour where
  observation_time : ℤ
  weather_code : Option String := none
  precipitation : Option ℚ := none
  precipitation_probability : Option ℚ := none
  precipitation_type : Option String := none
  temp : Option ℚ := none
  feels_like : Option ℚ := none
  dewpoint : Option ℚ := none
  humidity : Option ℚ := none
  baro_pressure : Option ℚ := none
  wind_speed : Option ℚ := none
  wind_gust : Option ℚ := none
  wind_direction : Option ℚ := none
  cloud_cover : Option ℚ := none
  visibility : Option ℚ := none
  o3 : Option ℚ := none
deriving DecidableEq, Repr

/-- A min/max sample inside a Climacell daily entry: a dict with an
`observation_time` (accessed directly) and optional `min`/`max`
sub-dicts each holding a `value`. -/
structure CCMinMax where
  observation_time : ℤ
  min : Option ℚ := none
  max : Option ℚ := none
deriving DecidableEq, Repr

/-- One entry of the Climacell daily forecast.  The sample lists
(`temp`, `feels_like`, `humidity`, `baro_pressure`, `wind_speed`) are
subscripted directly at lines 452–499, so the model makes them required
(an empty list also covers the key being absent for the
`getKeyValue`-reached `precipitation` path). -/
structure CCDay where
  observation_time : ℤ
  weather_code : Option String := none
  sunrise : Option ℤ := none
  sunset : Option ℤ := none
  precipitation : List CCMinMax := []
  precipitation_probability : Option ℚ := none
  temp : List CCMinMax := []
  feels_like : List CCMinMax := []
  humidity : List CCMinMax := []
  baro_pressure : List CCMinMax := []
  wind_speed : List CCMinMax := []
deriving DecidableEq, Repr

/-- The four Climacell products of one successful adapter run. -/
structure CCPayload where
  current : CCCurrent
  minutely : List CCMinute
  hourly : List CCHour
  daily : List CCDay
deriving DecidableEq, Repr

/-- The `currently` record built at lines 260–281. -/
def buildCCObs (c : CCCurrent) : Except PyErr Obs :=
  match gkvStrE c.weather_code mapCCWeatherCode with
  | .error e => .error e
  | .ok summaryV =>
    match gkvStrE c.weather_code ccMapIcons with
    | .error e => .error e
    | .ok iconV => .ok {
        time := c.observation_time,
        summary := summaryV,
        icon := iconV,
        precipIntensity := c.precipitation,
        precipType := precipTypeT c.precipitation_type,
        temperature := c.temp,
        apparentTemperature := c.feels_like,
        dewPoint := c.dewpoint,
        humidity := ccCurrentlyRound c.humidity,
        pressure := c.baro_pressure,
        windSpeed := c.wind_speed,
        windGust := c.wind_gust,
        windBearing := c.wind_direction,
        cloudCover := ccCurrentlyRound c.cloud_cover,
        visibility := c.visibility,
        ozone := c.o3 }

/-- Section `Currently` (lines 259–281): `output['currently']` is
replaced wholesale.  (The guard `if cc_current_obj:` is always true on
this path: a falsy realtime payload already returned at line 186.) -/
def ccCurrentlyStep (c : CCCurrent) (doc : Doc) : Except PyErr Doc :=
  (buildCCObs c).map (fun obs => { doc with currently := some obs })

/-- One nowcast entry mapped to a `minutely.data` record (lines
294–302). -/
def buildMinute (m : CCMinute) : MinEntry :=
  { time := m.observation_time,
    precipIntensity := m.precipitation,
    precipIntesityError := none,
    precipProbability := none,
    precipType := precipTypeT m.precipitation_type }

/-- Section `Minutely` (lines 286–308): the minutely block is replaced
with nowcast data only when `output['minutely']['data']` is missing or
an empty list; existing minute data is left untouched. -/
def minutelyStep (ccMin : List CCMinute) (doc : Doc) : Doc :=
  if ccMin.isEmpty then doc
  else
    match doc.minutely.data with
    | some l =>
      if l.isEmpty then
        { doc with minutely :=
            { summary := none, icon := none, data := some (ccMin.map buildMinute) } }
      else doc
    | none =>
      { doc with minutely :=
          { summary := none, icon := none, data := some (ccMin.map buildMinute) } }

/-- The hourly record built at lines 331–352 when the slot's timestamp
matches the Climacell sample. -/
def buildHour (t : ℤ) (h : CCHour) : Except PyErr HourEntry :=
  match gkvStrE h.weather_code mapCCWeatherCode with
  | .error e => .error e
  | .ok summaryV =>
    match gkvStrE h.weather_code ccMapIcons with
    | .error e => .error e
    | .ok iconV => .ok {
        time := t,
        summary := summaryV,
        icon := iconV,
        precipIntensity := h.precipitation,
        precipProbability := ccFraction2 h.precipitation_probability,
        precipType := precipTypeT h.precipitation_type,
        temperature := h.temp,
        apparentTemperature := h.feels_like,
        dewPoint := h.dewpoint,
        humidity := ccFraction2 h.humidity,
        pressure := h.baro_pressure,
        windSpeed := h.wind_speed,
        windGust := h.wind_gust,
        windBearing := h.wind_direction,
        cloudCover := ccFraction2 h.cloud_cover,
        visibility := h.visibility,
        ozone := h.o3 }

/-- The loop at lines 327–352: slot `i` of the skeleton is overwritten
from `cc_hourly_obj[i]` when the timestamps agree; indexing past the end
of the Climacell list raises `IndexError`. -/
def hourlyMergeAux (cc : List CCHour) : List HourEntry → ℕ → Except PyErr (List HourEntry)
  | [], _ => .ok []
  | e :: es, i =>
    match cc.get? i with
    | none => .error .indexError
    | some h =>
      match (if e.time = h.observation_time then buildHour e.time h else .ok e) with
      | .error err => .error err
      | .ok e2 =>
        match hourlyMergeAux cc es (i + 1) with
        | .error err => .error err
        | .ok rest => .ok (e2 :: rest)

/-- Section `Hourly` (lines 313–362).  When the input document has no
hourly data, the synthesis loop at line 321 calls two-argument
`range(start + (start + 3600*48), 3600)`, which is empty for any
plausible timestamp, so the skeleton stays `[]` and the merge loop does
not run; line 362 still stores the (empty) data list.  When the skeleton
is non-empty, the per-iteration assignments at lines 356–359 all read
`hourly_data[0]`, whose value is settled after the first iteration, so
their net effect is to copy the first merged entry's summary and icon
into both the hourly and the minutely headers — `minutely.data` itself
is not assigned here. -/
def hourlyStep (ccHourly : List CCHour) (doc : Doc) : Except PyErr Doc :=
  if ccHourly.isEmpty then .ok doc
  else
    match hourlyMergeAux ccHourly (doc.hourly.data.getD []) 0 with
    | .error e => .error e
    | .ok [] =>
      .ok { doc with hourly :=
              { summary := doc.hourly.summary, icon := doc.hourly.icon, data := some [] } }
    | .ok (m :: rest) =>
      .ok { doc with
              hourly := { summary := m.summary, icon := m.icon, data := some (m :: rest) },
              minutely := { summary := m.summary, icon := m.icon, data := doc.minutely.data } }

/-- The `getKeyValue(cc_day, ['precipitation', 0, 'max', 'value'])` walk
(lines 412–413). -/
def ccDayPrecipMax (l : List CCMinMax) : Option ℚ :=
  l.head?.bind (fun t => t.max)

/-- The temperature min/max scan (lines 452–462): every sample carrying
a `min` overwrites the low/min fields, every sample carrying a `max`
overwrites the high/max fields, so the last carrier wins. -/
def tempScan (d : DayEntry) (t : CCMinMax) : DayEntry :=
  let d1 := match t.min with
    | some v =>
      { d with temperatureLow := some v, temperatureLowTime := some t.observation_time,
               temperatureMin := some v, temperatureMinTime := some t.observation_time }
    | none => d
  match t.max with
  | some v =>
    { d1 with temperatureHigh := some v, temperatureHighTime := some t.observation_time,
              temperatureMax := some v, temperatureMaxTime := some t.observation_time }
  | none => d1

/-- The apparent-temperature min/max scan (lines 463–473). -/
def feelsScan (d : DayEntry) (t : CCMinMax) : DayEntry :=
  let d1 := match t.min with
    | some v =>
      { d with apparentTemperatureLow := some v,
               apparentTemperatureLowTime := some t.observation_time,
               apparentTemperatureMin := some v,
               apparentTemperatureMinTime := some t.observation_time }
    | none => d
  match t.max with
  | some v =>
    { d1 with apparentTemperatureHigh := some v,
              apparentTemperatureHighTime := some t.observation_time,
              apparentTemperatureMax := some v,
              apparentTemperatureMaxTime := some t.observation_time }
  | none => d1

/-- One iteration of the daily humidity loop (lines 477–483): `total`
is reset to 0 inside the loop body, so each iteration stores
`round((min + max of this sample) / len(list), 2)` and the last sample
wins.  `n` is the length of the whole sample list. -/
def humRecord (n : ℚ) (d : DayEntry) (t : CCMinMax) : DayEntry :=
  { d with humidity := some (pyRound2 ((t.min.getD 0 + t.max.getD 0) / n)) }

/-- One iteration of the daily pressure loop (lines 487–493), same shape
as the humidity loop. -/
def presRecord (n : ℚ) (d : DayEntry) (t : CCMinMax) : DayEntry :=
  { d with pressure := some (pyRound2 ((t.min.getD 0 + t.max.getD 0) / n)) }

/-- The wind-gust scan (lines 496–499): every sample carrying a `max`
overwrites the gust value and its timestamp. -/
def gustScan (d : DayEntry) (t : CCMinMax) : DayEntry :=
  match t.max with
  | some v => { d with windGust := some v, windGustTime := some t.observation_time }
  | none => d

/-- The daily record literal at lines 401–449: fields taken from the
Climacell day, `windSpeed` / `windBearing` / `cloudCover` / `visibility`
carried forward from the existing entry, everything else `None`.
`precipIntensityMaxTime` walks `['precipitation', 'observation_time']`,
a string key against a list, whose membership test fails, so it is
always `None`. -/
def buildDayBase (moonPh : ℤ → ℚ) (day : DayEntry) (cd : CCDay) : Except PyErr DayEntry :=
  match gkvStrE cd.weather_code mapCCWeatherCode with
  | .error e => .error e
  | .ok summaryV =>
    match gkvStrE cd.weather_code ccMapIcons with
    | .error e => .error e
    | .ok iconV => .ok {
        time := day.time,
        summary := summaryV,
        icon := iconV,
        sunriseTime := cd.sunrise,
        sunsetTime := cd.sunset,
        moonPhase := some (pyRound2 (moonPh day.time / (2799/100))),
        precipIntensity := ccDayPrecipMax cd.precipitation,
        precipIntensityMax := ccDayPrecipMax cd.precipitation,
        precipIntensityMaxTime := none,
        precipProbability := cd.precipitation_probability,
        windSpeed := day.windSpeed,
        windBearing := day.windBearing,
        cloudCover := day.cloudCover,
        visibility := day.visibility }

/-- One day of the update loop (lines 398–501): the record literal,
then the four sample scans and the two averaging loops. -/
def buildDay (moonPh : ℤ → ℚ) (day : DayEntry) (cd : CCDay) : Except PyErr DayEntry :=
  match buildDayBase moonPh day cd with
  | .error e => .error e
  | .ok base =>
    let a1 := cd.temp.foldl tempScan base
    let a2 := cd.feels_like.foldl feelsScan a1
    let a3 := cd.humidity.foldl (humRecord (cd.humidity.length : ℚ)) a2
    let a4 := cd.baro_pressure.foldl (presRecord (cd.baro_pressure.length : ℚ)) a3
    .ok (cd.wind_speed.foldl gustScan a4)

/-- The padding step (lines 383–389): fewer than 8 day entries are
topped up with timestamp-only entries at 24h increments from the last
entry; on an empty list the subscript `daily_data[len(daily_data)-1]`
raises `IndexError`.  (An empty list is also what the synthesis loop at
line 376 produces, since two-argument `range(start + (start + 86400*8),
86400)` is empty for any plausible timestamp.) -/
def padFrom (t : ℤ) : ℕ → List DayEntry
  | 0 => []
  | n + 1 => { time := t + 86400 } :: padFrom (t + 86400) n

def padDaily (l : List DayEntry) : Except PyErr (List DayEntry) :=
  if l.length < 8 then
    match l.getLast? with
    | none => .error .indexError
    | some last => .ok (l ++ padFrom last.time (8 - l.length))
  else .ok l

/-- The alignment loop (lines 392–395): `len(cc_daily_obj)` iterations,
each examining `cc_daily_obj[ctr]` and bumping `ctr` when that day
predates the skeleton's first day.  Since `ctr` never exceeds the
iteration index the lookup cannot fail (the fallback branch keeps `ctr`
and is unreachable). -/
def alignCtrAux (ccDaily : List CCDay) (first : ℤ) : ℕ → ℕ → ℕ
  | ctr, 0 => ctr
  | ctr, n + 1 =>
    match ccDaily.get? ctr with
    | some d =>
      if d.observation_time < first then alignCtrAux ccDaily first (ctr + 1) n
      else alignCtrAux ccDaily first ctr n
    | none => alignCtrAux ccDaily first ctr n

/-- The per-day update loop (lines 398–501): day `i` is rebuilt from
`cc_daily_obj[ctr]` with `ctr` incremented every iteration; running past
the end of the Climacell list raises `IndexError`. -/
def dailyMergeDays (moonPh : ℤ → ℚ) (ccDaily : List CCDay) :
    List DayEntry → ℕ → Except PyErr (List DayEntry)
  | [], _ => .ok []
  | d :: ds, ctr =>
    match ccDaily.get? ctr with
    | none => .error .indexError
    | some cd =>
      match buildDay moonPh d cd with
      | .error e => .error e
      | .ok d2 =>
        match dailyMergeDays moonPh ccDaily ds (ctr + 1) with
        | .error e => .error e
        | .ok rest => .ok (d2 :: rest)

/-- Section `Daily` (lines 367–509): pad the skeleton to 8 entries,
align, update day by day, then use the first merged day for the block's
summary and icon.  The two `IndexError` fallbacks for an empty merged
list are unreachable (padding guarantees a non-empty list, and the
merge preserves length). -/
def dailyStep (moonPh : ℤ → ℚ) (ccDaily : List CCDay) (doc : Doc) : Except PyErr Doc :=
  if ccDaily.isEmpty then .ok doc
  else
    match padDaily (doc.daily.data.getD []) with
    | .error e => .error e
    | .ok padded =>
      match padded with
      | [] => .error .indexError
      | d0 :: _ =>
        match dailyMergeDays moonPh ccDaily padded (alignCtrAux ccDaily d0.time 0 ccDaily.length) with
        | .error e => .error e
        | .ok [] => .error .indexError
        | .ok (m :: rest) =>
          .ok { doc with daily :=
                  { summary := m.summary, icon := m.icon, data := some (m :: rest) } }

/-- Section `Alerts`/`flags.sources` (lines 519–525): copy the existing
source names (when the list is truthy, i.e. non-empty) and append
`'climacell'` unconditionally — there is no deduplication.  In the
source, `input_dictionary` and `output` alias the same mutated dict on
this path, so the copy reads the current document's flags. -/
def ccSourcesStep (doc : Doc) : Doc :=
  let copied := if doc.flags.sources.isEmpty then [] else doc.flags.sources
  { doc with flags := { doc.flags with sources := copied ++ ["climacell"] } }

/-- The whole in-place transformation that `ClimacellWeatherAPI.get`
applies to an input document once all four fetches have succeeded. -/
def ccTransform (moonPh : ℤ → ℚ) (p : CCPayload) (doc : Doc) : Except PyErr Doc :=
  match ccCurrentlyStep p.current doc with
  | .error e => .error e
  | .ok d1 =>
    match hourlyStep p.hourly (minutelyStep p.minutely d1) with
    | .error e => .error e
    | .ok d3 =>
      match dailyStep moonPh p.daily d3 with
      | .error e => .error e
      | .ok d4 => .ok (ccSourcesStep d4)

/-- The function `ClimacellWeatherAPI.get` from the caller's point of view: when any
of the four products fails to fetch (or is falsy), the input document is
returned unchanged — `False` when there is none (lines 186–226).  With a
payload but no input document, the from-scratch build reaches line 521,
where `getKeyValue(False, ['flags', 'sources'])` evaluates `'flags' in
False` and raises `TypeError`. -/
def ccGet (moonPh : ℤ → ℚ) (fetch : Option CCPayload) (input : Option Doc) :
    Except PyErr (Option Doc) :=
  match fetch with
  | none => .ok input
  | some p =>
    match input with
    | some doc => (ccTransform moonPh p doc).map some
    | none => .error .typeError

/-!
## NOAA alert assembly and the sources flag (`NOAAWeatherAPI.py`)
-/

/-- The properties of one NOAA alert feature, with interval strings
already parsed (`parseInterval` is applied through `getKeyValue`
transforms at lines 749, 761–762).  `geocode.UGC` is iterated directly
at line 754, so the model makes it a required list. -/
structure NOAAAlertProps where
  event : Option String := none
  severity : Option String := none
  onset : Option ℤ := none
  expires : Option ℤ := none
  description : Option String := none
  atId : Option String := none
  ugc : List String := []
deriving DecidableEq, Repr

/-- The substitution `re.sub` with pattern whitespace-run and a space: collapse every maximal run of whitespace
characters into a single space.  The flag records whether the previous
character was part of a whitespace run. -/
def collapseWsAux : Bool → List Char → List Char
  | _, [] => []
  | prevWs, c :: rest =>
    if c.isWhitespace then
      if prevWs then collapseWsAux true rest
      else ' ' :: collapseWsAux true rest
    else c :: collapseWsAux false rest

/-- The alert-description transform at line 763. -/
def normalizeWs (s : String) : String := String.mk (collapseWsAux false s.toList)

/-- Region resolution (lines 753–755): each UGC code is looked up with
`noaa_county_list[county_id]`, a direct dict subscript that raises
`KeyError` when the code is in neither the county nor the zone table. -/
def resolveRegions (cmap : List (String × String)) : List String → Except PyErr (List String)
  | [] => .ok []
  | c :: cs =>
    match cmap.lookup c with
    | none => .error .keyError
    | some nm =>
      match resolveRegions cmap cs with
      | .error e => .error e
      | .ok rest => .ok (nm :: rest)

/-- The alert assembly loop (lines 746–765): an alert is kept only when
its parsed `expires` timestamp is strictly greater than the current
time; a missing `expires` makes the comparison `None > now`, a
`TypeError`. -/
def buildAlerts (now : ℤ) (cmap : List (String × String)) :
    List NOAAAlertProps → Except PyErr (List Alert)
  | [] => .ok []
  | p :: ps =>
    match p.expires with
    | none => .error .typeError
    | some e =>
      if e > now then
        match resolveRegions cmap p.ugc with
        | .error err => .error err
        | .ok regions =>
          match buildAlerts now cmap ps with
          | .error err => .error err
          | .ok rest =>
            .ok ({ title := p.event, regions := regions, severity := p.severity,
                   time := p.onset, expires := some e,
                   description := gkvStr p.description normalizeWs,
                   url := p.atId } :: rest)
      else buildAlerts now cmap ps

/-- Line 771 of `NOAAWeatherAPI.py`: `output['flags']['sources'] =
'noaa',` — the trailing comma makes it the one-element tuple
`('noaa',)`. -/
def noaaSourcesTuple : List String := ["noaa"]

def noaaSourcesStep (doc : Doc) : Doc :=
  { doc with flags := { doc.flags with sources := noaaSourcesTuple } }

/-!
## The request handler (`darksky-api.py`, `forecast`, lines 55–113)

Coordinates are modelled after float parsing (the split/parse failures
also return 400 but are not part of any claim).  The second component of
the result records whether the upstream adapters were invoked, which is
what "no upstream fetch" means observationally.  Writing the cache file
on success is a side effect with no bearing on the response and is not
modelled.  Successful responses carry Flask's default status 200.
-/

/-- A response from the handler: a JSON document body or a plain-text
message, with its status code. -/
inductive Response where
  | body (doc : Doc) (status : ℕ)
  | text (msg : String) (status : ℕ)
deriving DecidableEq, Repr

def usaMsg : String := "URL must include a valid latitude,longitude for a location in the USA"

def noDataMsg : String := "Failed to obtain any weather data."

/-- The bounding-box validation at lines 70–75. -/
def coordCheck (lat lon : ℚ) : Option Response :=
  if lat > 65 ∨ lat < 19 then some (.text usaMsg 400)
  else if lon > -67 ∨ lon < -162 then some (.text usaMsg 400)
  else none

/-- Lines 87–90: an `alerts` key holding an empty list is deleted before
the document is cached and returned. -/
def stripEmptyAlerts (doc : Doc) : Doc :=
  match doc.alerts with
  | some l => if l.isEmpty then { doc with alerts := none } else doc
  | none => doc

/-- The handler body after parsing (lines 70–113): validate the
coordinates, run the NOAA adapter then the Climacell adapter, and fall
back to the cached snapshot (and then to a 502) when the combined
output is falsy.  `noaaRes` is the NOAA adapter's result (`none` for
its `False` on failure) and `ccFetch` the Climacell fetch outcome. -/
def forecastRun (lat lon : ℚ) (noaaRes : Option Doc) (ccFetch : Option CCPayload)
    (moonPh : ℤ → ℚ) (snapshot : Option Doc) : Except PyErr (Response × Bool) :=
  match coordCheck lat lon with
  | some r => .ok (r, false)
  | none =>
    match ccGet moonPh ccFetch noaaRes with
    | .error e => .error e
    | .ok (some doc) => .ok (.body (stripEmptyAlerts doc) 200, true)
    | .ok none =>
      match snapshot with
      | some snap => .ok (.body snap 200, true)
      | none => .ok (.text noDataMsg 502, true)

/-- A last-good snapshot document used to instantiate claim C1. -/
def snapDoc : Doc := { latitude := 40, longitude := -100 }

/-- Concrete inputs instantiating claims C3 and C10: a NOAA-shaped
skeleton with populated minutely data and an aligned Climacell
payload. -/
def wMoon : ℤ → ℚ := fun _ => 0

def wMinEntry : MinEntry := { time := 0 }

def wDoc : Doc :=
  { minutely := { data := some [wMinEntry] },
    hourly := { data := some [{ time := 100 }] },
    daily := { data := some [{ time := 0 }, { time := 86400 }, { time := 172800 },
      { time := 259200 }, { time := 345600 }, { time := 432000 }, { time := 518400 },
      { time := 604800 }] },
    flags := { sources := ["noaa"] } }

def wPayload : CCPayload :=
  { current := {},
    minutely := [{ observation_time := 60 }],
    hourly := [{ observation_time := 100 }],
    daily := [{ observation_time := 0 }, { observation_time := 86400 },
      { observation_time := 172800 }, { observation_time := 259200 },
      { observation_time := 345600 }, { observation_time := 432000 },
      { observation_time := 518400 }, { observation_time := 604800 }] }

def wOut : Doc := ((ccTransform wMoon wPayload wDoc).toOption).getD {}

def wCCHour : CCHour := { observation_time := 100, weather_code := some "rain" }

def wDoc10 : Doc :=
  { minutely := { summary := some "Old summary", icon := some "old-icon",
                  data := some [wMinEntry] },
    hourly := { summary := some "Old summary", icon := some "old-icon",
                data := some [{ time := 100 }] } }

def wHour10 : HourEntry := { time := 100, summary := some "Rain", icon := some "rain" }

def wOut10 : Doc := ((hourlyStep [wCCHour] wDoc10).toOption).getD {}

/-- A Climacell daily humidity sample used to instantiate the amended
claim C4: min 40 %, max 60 % yields a stored daily humidity of 100.0 —
the percent scale, not a fraction. -/
def wHumSample : CCMinMax := { observation_time := 0, min := some 40, max := some 60 }

/-- A document whose sources already name the secondary provider, used
to refute the deduplication part of claim C6. -/
def dupDoc : Doc := { flags := { sources := ["climacell"] } }

/-- The document state right after the NOAA adapter flags its
contribution. -/
def noaaFlaggedDoc : Doc := noaaSourcesStep {}

/-- A concrete NOAA alert used to instantiate claim C8. -/
def wAlertProps : NOAAAlertProps :=
  { event := some "Flood Warning", severity := some "Severe", onset := some 100,
    expires := some 500, ugc := ["NYC031"] }

def wCountyMap : List (String × String) := [("NYC031", "Yates")]

def wAlert : Alert :=
  { title := some "Flood Warning", regions := ["Yates"], severity := some "Severe",
    time := some 100, expires := some 500 }

/-!
## Theorems
-/

theorem ratFloor_eq (q : ℚ) : ratFloor q = ⌊q⌋ := Rat.floor_def.symm

theorem roundHalfEven_cases (q : ℚ) :
    roundHalfEven q = ⌊q⌋ ∨ roundHalfEven q = ⌊q⌋ + 1 := by
  unfold roundHalfEven
  rw [ratFloor_eq]
  split
  · exact Or.inl rfl
  · split
    · exact Or.inr rfl
    · split
      · exact Or.inl rfl
      · exact Or.inr rfl

theorem le_roundHalfEven {n : ℤ} {q : ℚ} (h : (n : ℚ) ≤ q) :
    n ≤ roundHalfEven q := by
  have h1 : n ≤ ⌊q⌋ := Int.le_floor.mpr h
  rcases roundHalfEven_cases q with h2 | h2 <;> omega

theorem roundHalfEven_le {n : ℤ} {q : ℚ} (h : q ≤ (n : ℚ)) :
    roundHalfEven q ≤ n := by
  have hfl : ⌊q⌋ ≤ n := by
    have := Int.floor_le_floor h
    simpa using this
  unfold roundHalfEven
  rw [ratFloor_eq]
  split
  · exact hfl
  · rename_i hr
    push_neg at hr
    have hlt : (⌊q⌋ : ℚ) < q := by linarith
    have hlt2 : ⌊q⌋ < n := by exact_mod_cast hlt.trans_le h
    split
    · omega
    · split
      · exact hfl
      · omega

theorem pyRound2_nonneg {q : ℚ} (h : 0 ≤ q) : 0 ≤ pyRound2 q := by
  unfold pyRound2
  have h1 : (0 : ℤ) ≤ roundHalfEven (q * 100) :=
    le_roundHalfEven (by push_cast; positivity)
  have h2 : (0 : ℚ) ≤ (roundHalfEven (q * 100) : ℚ) := by exact_mod_cast h1
  positivity

theorem pyRound2_le_one {q : ℚ} (h : q ≤ 1) : pyRound2 q ≤ 1 := by
  unfold pyRound2
  have h1 : roundHalfEven (q * 100) ≤ (100 : ℤ) := by
    apply roundHalfEven_le
    push_cast
    linarith
  rw [div_le_one (by norm_num)]
  exact_mod_cast h1

set_option maxRecDepth 4000 in
example : cToF 0 = 32 := by with_unfolding_all decide

set_option maxRecDepth 4000 in
example : msToMph 10 = 2237/100 := by with_unfolding_all decide

example : getKeyValue (.obj [("a", .num 1)]) [.name "a"] none = .ok (.num 1) := rfl

example : getKeyValue (.obj [("a", .num 1)]) [.name "b"] none = .ok .null := rfl

example : getKeyValue (.arr [.num 10, .num 20]) [.idx 5] none = .ok .null := rfl

example : getKeyValue (.arr [.num 10, .num 20]) [.idx (-1)] none = .ok (.num 20) := rfl

example : getKeyValue (.arr [.num 10, .num 20]) [.idx (-5)] none = .error .indexError := rfl

example : getKeyValue (.bool false) [.name "flags"] none = .error .typeError := rfl

example : noaaMapIcons "https://api.weather.gov/icons/land/day/tsra,40?size=medium" = "rain" := rfl

example : noaaMapIcons "https://api.weather.gov/icons/land/day/unknown_code,40?size=medium" = "" := rfl

example : noaaMapIcons "https://api.weather.gov/icons/land/night/few?size=medium" = "clear-night" := rfl

example : noaaMapIcons "no-marker-here" = "" := rfl

example : ccMapIcons "tstorm" = .ok "rain" := rfl

example : ccMapIcons "tornado" = .error .nameError := rfl

example : mapCCWeatherCode "snow_light" = .ok "Light Snow" := rfl

/-!
## Frame lemmas for the Climacell transformation
-/

theorem ccCurrentlyStep_minutely {c : CCCurrent} {doc out : Doc}
    (h : ccCurrentlyStep c doc = .ok out) : out.minutely = doc.minutely := by
  unfold ccCurrentlyStep at h
  cases hb : buildCCObs c with
  | error e => rw [hb] at h; exact absurd h (by simp [Except.map])
  | ok obs => rw [hb] at h; simp [Except.map] at h; rw [← h]

/-- What `minutelyStep` does, case by case: either the document is
untouched, or the minutely block is rebuilt because minute data was
absent or empty. -/
theorem minutelyStep_eq (ccMin : List CCMinute) (doc : Doc) :
    minutelyStep ccMin doc = doc ∨
    (minutelyStep ccMin doc =
        { doc with minutely :=
            { summary := none, icon := none, data := some (ccMin.map buildMinute) } } ∧
      (doc.minutely.data = none ∨ doc.minutely.data = some [])) := by
  unfold minutelyStep
  by_cases he : ccMin.isEmpty = true
  · rw [if_pos he]
    exact Or.inl rfl
  · rw [if_neg he]
    cases hd : doc.minutely.data with
    | none => exact Or.inr ⟨rfl, Or.inl rfl⟩
    | some l =>
      cases l with
      | nil => exact Or.inr ⟨rfl, Or.inr rfl⟩
      | cons x xs => exact Or.inl rfl

theorem minutelyStep_keeps_nonempty {ccMin : List CCMinute} {doc : Doc}
    {l : List MinEntry} (hl : doc.minutely.data = some l) (hne : l ≠ []) :
    minutelyStep ccMin doc = doc := by
  rcases minutelyStep_eq ccMin doc with h | ⟨_, habs⟩
  · exact h
  · rcases habs with h2 | h2
    · rw [hl] at h2; exact Option.noConfusion h2
    · rw [hl] at h2; exact absurd (Option.some.inj h2) hne

theorem minutelyStep_data_changed {ccMin : List CCMinute} {doc : Doc}
    (h : (minutelyStep ccMin doc).minutely.data ≠ doc.minutely.data) :
    doc.minutely.data = none ∨ doc.minutely.data = some [] := by
  rcases minutelyStep_eq ccMin doc with heq | ⟨_, habs⟩
  · exact absurd (by rw [heq]) h
  · exact habs

theorem hourlyStep_minutely_data {cc : List CCHour} {doc out : Doc}
    (h : hourlyStep cc doc = .ok out) : out.minutely.data = doc.minutely.data := by
  unfold hourlyStep at h
  by_cases he : cc.isEmpty = true
  · rw [if_pos he] at h
    cases h
    rfl
  · rw [if_neg he] at h
    cases hm : hourlyMergeAux cc (doc.hourly.data.getD []) 0 with
    | error e => rw [hm] at h; exact Except.noConfusion h
    | ok merged =>
      rw [hm] at h
      cases merged with
      | nil => cases h; rfl
      | cons m rest => cases h; rfl

theorem dailyStep_minutely {mp : ℤ → ℚ} {cc : List CCDay} {doc out : Doc}
    (h : dailyStep mp cc doc = .ok out) : out.minutely = doc.minutely := by
  unfold dailyStep at h
  split at h
  · cases h; rfl
  · split at h
    · exact Except.noConfusion h
    · split at h
      · exact Except.noConfusion h
      · split at h
        · exact Except.noConfusion h
        · exact Except.noConfusion h
        · cases h; rfl

theorem ccSourcesStep_minutely (doc : Doc) :
    (ccSourcesStep doc).minutely = doc.minutely := rfl

theorem ccTransform_minutely_preserved {mp : ℤ → ℚ} {p : CCPayload} {doc out : Doc}
    {l : List MinEntry} (hl : doc.minutely.data = some l) (hne : l ≠ [])
    (h : ccTransform mp p doc = .ok out) : out.minutely.data = some l := by
  unfold ccTransform at h
  split at h
  · exact Except.noConfusion h
  · rename_i d1 h1
    have e1 : d1.minutely = doc.minutely := ccCurrentlyStep_minutely h1
    have hl1 : d1.minutely.data = some l := by rw [e1]; exact hl
    rw [minutelyStep_keeps_nonempty hl1 hne] at h
    split at h
    · exact Except.noConfusion h
    · rename_i d3 h3
      split at h
      · exact Except.noConfusion h
      · rename_i d4 h4
        cases h
        rw [ccSourcesStep_minutely, dailyStep_minutely h4, hourlyStep_minutely_data h3, hl1]

theorem ccTransform_minutely_changed {mp : ℤ → ℚ} {p : CCPayload} {doc out : Doc}
    (h : ccTransform mp p doc = .ok out)
    (hne : out.minutely.data ≠ doc.minutely.data) :
    doc.minutely.data = none ∨ doc.minutely.data = some [] := by
  unfold ccTransform at h
  split at h
  · exact Except.noConfusion h
  · rename_i d1 h1
    have e1 : d1.minutely = doc.minutely := ccCurrentlyStep_minutely h1
    split at h
    · exact Except.noConfusion h
    · rename_i d3 h3
      split at h
      · exact Except.noConfusion h
      · rename_i d4 h4
        cases h
        have hchain : (ccSourcesStep d4).minutely.data =
            (minutelyStep p.minutely d1).minutely.data := by
          rw [ccSourcesStep_minutely, dailyStep_minutely h4, hourlyStep_minutely_data h3]
        have hstep : (minutelyStep p.minutely d1).minutely.data ≠ d1.minutely.data := by
          intro hcontra
          apply hne
          rw [hchain, hcontra, e1]
        have := minutelyStep_data_changed hstep
        rw [e1] at this
        exact this

/-!
## Claim theorems
-/

/-- Claim C1: for every request whose coordinates pass validation, if
both adapters signal upstream-unavailable — so the aggregated document
is absent — and a last-good snapshot exists, the response body is
exactly the snapshot document with success status 200; if both fail and
no snapshot exists, the handler returns failure status 502 with a
plain-text message. -/
theorem claim1_fallback_to_snapshot (lat lon : ℚ) (mp : ℤ → ℚ)
    (hv : coordCheck lat lon = none) :
    (∀ s : Doc, forecastRun lat lon none none mp (some s) = .ok (.body s 200, true)) ∧
    forecastRun lat lon none none mp none = .ok (.text noDataMsg 502, true) := by
  constructor
  · intro s
    unfold forecastRun
    rw [hv]
    rfl
  · unfold forecastRun
    rw [hv]
    rfl

theorem claim1_fallback_to_snapshot_witness :
    forecastRun 40 (-100) none none (fun _ => 0) (some snapDoc) =
      .ok (.body snapDoc 200, true) ∧
    forecastRun 40 (-100) none none (fun _ => 0) none =
      .ok (.text noDataMsg 502, true) :=
  ⟨(claim1_fallback_to_snapshot 40 (-100) (fun _ => 0) (by with_unfolding_all decide)).1 snapDoc,
   (claim1_fallback_to_snapshot 40 (-100) (fun _ => 0) (by with_unfolding_all decide)).2⟩

/-- Claim C2: a request with latitude outside [19, 65] or longitude
outside [-162, -67] is answered with status 400 and the upstream
adapters are never invoked; coordinates inside the closed bounds are
not rejected by this check. -/
theorem claim2_coordinate_bounds :
    (∀ (lat lon : ℚ) (na : Option Doc) (cf : Option CCPayload) (mp : ℤ → ℚ)
        (snap : Option Doc), (lat < 19 ∨ 65 < lat ∨ lon < -162 ∨ -67 < lon) →
        forecastRun lat lon na cf mp snap = .ok (.text usaMsg 400, false)) ∧
    (∀ lat lon : ℚ, 19 ≤ lat → lat ≤ 65 → -162 ≤ lon → lon ≤ -67 →
        coordCheck lat lon = none) := by
  constructor
  · intro lat lon na cf mp snap h
    have hc : coordCheck lat lon = some (.text usaMsg 400) := by
      unfold coordCheck
      by_cases h1 : lat > 65 ∨ lat < 19
      · rw [if_pos h1]
      · rw [if_neg h1]
        push_neg at h1
        have h2 : lon > -67 ∨ lon < -162 := by
          rcases h with h | h | h | h
          · linarith [h1.2]
          · linarith [h1.1]
          · exact Or.inr h
          · exact Or.inl h
        rw [if_pos h2]
    unfold forecastRun
    rw [hc]
  · intro lat lon h1 h2 h3 h4
    unfold coordCheck
    rw [if_neg (by push_neg; exact ⟨by linarith, by linarith⟩),
        if_neg (by push_neg; exact ⟨by linarith, by linarith⟩)]

set_option maxRecDepth 4000 in
theorem claim2_coordinate_bounds_witness :
    forecastRun (1899/100) (-100) none none (fun _ => 0) none =
      .ok (.text usaMsg 400, false) ∧
    forecastRun 40 (-16201/100) none none (fun _ => 0) none =
      .ok (.text usaMsg 400, false) ∧
    coordCheck 19 (-162) = none ∧
    coordCheck 65 (-67) = none :=
  ⟨claim2_coordinate_bounds.1 (1899/100) (-100) none none (fun _ => 0) none
      (Or.inl (by with_unfolding_all decide)),
   claim2_coordinate_bounds.1 40 (-16201/100) none none (fun _ => 0) none
      (Or.inr (Or.inr (Or.inl (by with_unfolding_all decide)))),
   claim2_coordinate_bounds.2 19 (-162) le_rfl (by with_unfolding_all decide)
      le_rfl (by with_unfolding_all decide),
   claim2_coordinate_bounds.2 65 (-67) (by with_unfolding_all decide) le_rfl
      (by with_unfolding_all decide) le_rfl⟩

/-- Claim C5 (code bug): the NOAA icon mapper degrades an unknown token
or an unparsable URL to the empty string, but the Climacell mappers
raise `NameError` on any unknown truthy code — their warning calls
reference names (`noaa_icon`, `flask_app`) that are undefined in their
scope — so an unknown Climacell code aborts the request instead of
degrading. -/
theorem claim5_unknown_icon_behavior :
    ccMapIcons "tornado" = .error .nameError ∧
    mapCCWeatherCode "tornado" = .error .nameError ∧
    noaaMapIcons "https://api.weather.gov/icons/land/day/unknown_code,40?size=medium" = "" ∧
    noaaMapIcons "no-marker-here" = "" ∧
    noaaMapIcons "https://api.weather.gov/icons/land/day/tsra,40?size=medium" = "rain" ∧
    ccMapIcons "rain" = .ok "rain" :=
  ⟨rfl, rfl, rfl, rfl, rfl, rfl⟩

set_option maxRecDepth 4000 in
/-- Claim C9: the Celsius→Fahrenheit conversion is
`round(c * 9/5 + 32, 2)` (so 0 °C gives exactly 32.0 °F), the
m/s→mph conversion is `round(v * 2.23694, 2)` (so 10 m/s gives exactly
22.37 mph), and the daily-average use sites convert and round with the
same formulas at the point of conversion. -/
theorem claim9_unit_conversions :
    cToF 0 = 32 ∧ msToMph 10 = 2237/100 ∧
    (∀ c : ℚ, cToF c = pyRound2 (c * 9 / 5 + 32)) ∧
    (∀ v : ℚ, msToMph v = pyRound2 (v * (223694/100000))) ∧
    (∀ t h : ℚ, noaaDailyDewPoint t h = cToF (t / h)) ∧
    (∀ t h : ℚ, noaaDailyWindSpeed t h = msToMph (t / h)) :=
  ⟨by with_unfolding_all decide, by with_unfolding_all decide,
   fun _ => rfl, fun _ => rfl, fun _ _ => rfl, fun _ _ => rfl⟩

theorem claim9_unit_conversions_witness :
    noaaDailyDewPoint 10 2 = cToF (10 / 2) ∧
    noaaDailyWindSpeed 10 2 = msToMph (10 / 2) :=
  ⟨claim9_unit_conversions.2.2.2.2.1 10 2, claim9_unit_conversions.2.2.2.2.2 10 2⟩

/-- Claim C3: when the input document's `minutely.data` is already a
non-empty list, one run of the Climacell adapter — and a second run on
its output — leaves `minutely.data` exactly unchanged, and the adapter
writes minute data only when the input document has none (absent or
empty list). -/
theorem claim3_minutely_data_protected :
    (∀ (mp : ℤ → ℚ) (p : CCPayload) (doc out : Doc) (l : List MinEntry),
        doc.minutely.data = some l → l ≠ [] → ccTransform mp p doc = .ok out →
        out.minutely.data = some l) ∧
    (∀ (mp : ℤ → ℚ) (p : CCPayload) (doc out out2 : Doc) (l : List MinEntry),
        doc.minutely.data = some l → l ≠ [] →
        ccTransform mp p doc = .ok out → ccTransform mp p out = .ok out2 →
        out2.minutely.data = some l) ∧
    (∀ (mp : ℤ → ℚ) (p : CCPayload) (doc out : Doc),
        ccTransform mp p doc = .ok out → out.minutely.data ≠ doc.minutely.data →
        doc.minutely.data = none ∨ doc.minutely.data = some []) := by
  refine ⟨?_, ?_, ?_⟩
  · intro mp p doc out l hl hne h
    exact ccTransform_minutely_preserved hl hne h
  · intro mp p doc out out2 l hl hne h h2
    exact ccTransform_minutely_preserved (ccTransform_minutely_preserved hl hne h) hne h2
  · intro mp p doc out h hne
    exact ccTransform_minutely_changed h hne

set_option maxRecDepth 8000 in
theorem claim3_minutely_data_protected_witness :
    wOut.minutely.data = some [wMinEntry] :=
  claim3_minutely_data_protected.1 wMoon wPayload wDoc wOut [wMinEntry] rfl
    (List.cons_ne_nil _ _) (by with_unfolding_all rfl)

/-- Claim C10: whenever the Climacell hourly section runs with a
non-empty payload and the merged hourly list is non-empty, it overwrites
`minutely.summary` and `minutely.icon` with the first hourly entry's
summary and icon — even though `minutely.data` itself is left exactly as
it was; only the `data` field of the minutely block is protected. -/
theorem claim10_hourly_overwrites_minutely_header :
    ∀ (cc : List CCHour) (doc out : Doc) (m : HourEntry) (ms : List HourEntry),
      cc ≠ [] → hourlyStep cc doc = .ok out → out.hourly.data = some (m :: ms) →
      out.minutely.summary = m.summary ∧ out.minutely.icon = m.icon ∧
      out.minutely.data = doc.minutely.data ∧
      out.hourly.summary = m.summary ∧ out.hourly.icon = m.icon := by
  intro cc doc out m ms hcc h hdata
  unfold hourlyStep at h
  split at h
  · rename_i htrue
    exact absurd (List.isEmpty_iff.mp htrue) hcc
  · split at h
    · exact Except.noConfusion h
    · cases h
      simp at hdata
    · rename_i m1 rest1 hmerge
      cases h
      have hinj : m1 = m ∧ rest1 = ms := by simpa using hdata
      rcases hinj with ⟨hm, hr⟩
      subst hm
      exact ⟨rfl, rfl, rfl, rfl, rfl⟩

theorem claim10_hourly_overwrites_minutely_header_witness :
    wOut10.minutely.summary = wHour10.summary ∧ wOut10.minutely.icon = wHour10.icon ∧
    wOut10.minutely.data = wDoc10.minutely.data ∧
    wOut10.hourly.summary = wHour10.summary ∧ wOut10.hourly.icon = wHour10.icon :=
  claim10_hourly_overwrites_minutely_header [wCCHour] wDoc10 wOut10 wHour10 []
    (List.cons_ne_nil _ _) (by with_unfolding_all rfl) (by with_unfolding_all rfl)

/-- The net effect of the daily humidity loop: the last sample of the
list determines the stored value. -/
theorem foldl_humRecord_getLast (n : ℚ) (t : CCMinMax) :
    ∀ (l : List CCMinMax) (d : DayEntry), l.getLast? = some t →
      (l.foldl (humRecord n) d).humidity =
        some (pyRound2 ((t.min.getD 0 + t.max.getD 0) / n))
  | [], _, h => Option.noConfusion h
  | [x], d, h => by
      have hx : x = t := by simpa using h
      subst hx
      rfl
  | x :: y :: ys, d, h => by
      rw [List.getLast?_cons_cons] at h
      exact foldl_humRecord_getLast n t (y :: ys) (humRecord n d x) h

set_option maxRecDepth 4000 in
/-- Claim C4 counterexample: the NOAA adapter stores
`currently.humidity = round(100 - 5*(T - Td), 2)` — at T = 20 °C,
Td = 10 °C the stored value is 50, which cannot be any percent value
divided by 100 and rounded to two decimals; and the Climacell adapter
stores `currently.humidity = round(47/100) = 0`, not
`round(47/100, 2) = 0.47`. -/
theorem claim4_humidity_counterexample :
    noaaCurrentlyHumidity (some 20) (some 10) = some 50 ∧
    ¬(∃ p : ℚ, 0 ≤ p ∧ p ≤ 100 ∧
        noaaCurrentlyHumidity (some 20) (some 10) = some (pyRound2 (p / 100))) ∧
    ccCurrentlyRound (some 47) = some 0 ∧
    pyRound2 (47 / 100) = 47/100 ∧
    ccCurrentlyRound (some 47) ≠ some (pyRound2 (47 / 100)) := by
  refine ⟨by with_unfolding_all decide, ?_, by with_unfolding_all decide,
    by with_unfolding_all decide, by with_unfolding_all decide⟩
  rintro ⟨p, hp0, hp1, he⟩
  have h50 : noaaCurrentlyHumidity (some 20) (some 10) = some 50 := by
    with_unfolding_all decide
  rw [h50] at he
  have heq : (50 : ℚ) = pyRound2 (p / 100) := Option.some.inj he
  have hle : pyRound2 (p / 100) ≤ 1 :=
    pyRound2_le_one ((div_le_one (by norm_num)).mpr (by linarith))
  rw [← heq] at hle
  linarith

/-- Claim C4 amended: the hourly humidity paths of both adapters and the
NOAA daily path store `round(percent/100, 2)`, a 0–1 fraction for
percent inputs; but the NOAA currently path stores
`round(100 - 5*(T - Td), 2)` on the 0–100 scale (and `None` when either
reading is missing or zero), the Climacell currently path stores
`round(v/100)` with zero decimal places, and the Climacell daily path
stores `round((min + max)/len, 2)` of the last sample, still on the
0–100 scale. -/
theorem claim4_humidity_paths_amended :
    (∀ v : ℚ, noaaHourlyHumidity v = pyRound2 (v / 100) ∧
        (0 ≤ v → v ≤ 100 → 0 ≤ noaaHourlyHumidity v ∧ noaaHourlyHumidity v ≤ 1)) ∧
    (∀ v : ℚ, v ≠ 0 → ccFraction2 (some v) = some (pyRound2 (v / 100))) ∧
    (∀ t h : ℚ, 0 < h → 0 ≤ t → t ≤ 100 * h →
        0 ≤ noaaDailyHumidity t h ∧ noaaDailyHumidity t h ≤ 1) ∧
    (∀ t d : ℚ, noaaCurrentlyHumidity (some t) (some d) =
        if t ≠ 0 ∧ d ≠ 0 then some (pyRound2 (100 - 5 * (t - d))) else none) ∧
    (∀ v : ℚ, v ≠ 0 → ccCurrentlyRound (some v) = some (pyRound0 (v / 100))) ∧
    (∀ (n : ℚ) (d : DayEntry) (l : List CCMinMax) (t : CCMinMax),
        l.getLast? = some t →
        (l.foldl (humRecord n) d).humidity =
          some (pyRound2 ((t.min.getD 0 + t.max.getD 0) / n))) := by
  refine ⟨?_, ?_, ?_, fun t d => rfl, ?_, ?_⟩
  · intro v
    refine ⟨rfl, fun h0 h1 => ⟨?_, ?_⟩⟩
    · exact pyRound2_nonneg (div_nonneg h0 (by norm_num))
    · exact pyRound2_le_one ((div_le_one (by norm_num)).mpr h1)
  · intro v hv
    unfold ccFraction2 gkvQ
    simp [hv]
  · intro t h hpos h0 h1
    constructor
    · exact pyRound2_nonneg (by positivity)
    · refine pyRound2_le_one ?_
      rw [div_le_one (by norm_num), div_le_iff₀ hpos]
      linarith
  · intro v hv
    unfold ccCurrentlyRound gkvQ
    simp [hv]
  · intro n d l t h
    exact foldl_humRecord_getLast n t l d h

set_option maxRecDepth 4000 in
theorem claim4_humidity_paths_amended_witness :
    (0 ≤ noaaHourlyHumidity 47 ∧ noaaHourlyHumidity 47 ≤ 1) ∧
    ccFraction2 (some 47) = some (pyRound2 (47 / 100)) ∧
    (0 ≤ noaaDailyHumidity 150 3 ∧ noaaDailyHumidity 150 3 ≤ 1) ∧
    ccCurrentlyRound (some 47) = some (pyRound0 (47 / 100)) ∧
    (([wHumSample] : List CCMinMax).foldl (humRecord 1) { time := 0 }).humidity =
      some (pyRound2 ((wHumSample.min.getD 0 + wHumSample.max.getD 0) / 1)) :=
  ⟨(claim4_humidity_paths_amended.1 47).2 (by with_unfolding_all decide)
      (by with_unfolding_all decide),
   claim4_humidity_paths_amended.2.1 47 (by with_unfolding_all decide),
   claim4_humidity_paths_amended.2.2.1 150 3 (by with_unfolding_all decide)
      (by with_unfolding_all decide) (by with_unfolding_all decide),
   claim4_humidity_paths_amended.2.2.2.2.1 47 (by with_unfolding_all decide),
   claim4_humidity_paths_amended.2.2.2.2.2 1 { time := 0 } [wHumSample] wHumSample rfl⟩

theorem ccSourcesStep_sources (doc : Doc) :
    (ccSourcesStep doc).flags.sources = doc.flags.sources ++ ["climacell"] := by
  unfold ccSourcesStep
  cases hs : doc.flags.sources <;> simp [hs]

/-- Claim C6 counterexample: the secondary adapter copies the existing
sources and appends its name unconditionally — applied to a document
already listing `'climacell'`, it produces a duplicated list, so it
does not deduplicate against the names already present. -/
theorem claim6_sources_dedup_counterexample :
    (ccSourcesStep dupDoc).flags.sources = ["climacell", "climacell"] ∧
    ¬(ccSourcesStep dupDoc).flags.sources.Nodup := by
  refine ⟨rfl, ?_⟩
  intro h
  rw [ccSourcesStep_sources] at h
  simp [dupDoc] at h

/-- Claim C6 amended: in the NOAA-then-Climacell success flow the final
`flags.sources` is exactly `['noaa', 'climacell']` — every contributing
provider in call order, without duplicates — but the secondary adapter
merely copies the existing names and appends `'climacell'`
unconditionally; it performs no deduplication. -/
theorem claim6_sources_append_amended :
    (∀ doc : Doc, (ccSourcesStep doc).flags.sources = doc.flags.sources ++ ["climacell"]) ∧
    (∀ doc : Doc, doc.flags.sources = noaaSourcesTuple →
        (ccSourcesStep doc).flags.sources = ["noaa", "climacell"] ∧
        (ccSourcesStep doc).flags.sources.Nodup) ∧
    (∀ doc : Doc, (noaaSourcesStep doc).flags.sources = ["noaa"]) := by
  refine ⟨ccSourcesStep_sources, ?_, fun doc => rfl⟩
  intro doc hd
  rw [ccSourcesStep_sources, hd]
  refine ⟨rfl, ?_⟩
  decide

theorem claim6_sources_append_amended_witness :
    (ccSourcesStep noaaFlaggedDoc).flags.sources = ["noaa", "climacell"] ∧
    (ccSourcesStep noaaFlaggedDoc).flags.sources.Nodup :=
  claim6_sources_append_amended.2.1 noaaFlaggedDoc rfl

/-- Claim C7 counterexample: `getKeyValue` guards an integer key only by
`key < len(container)`, so a negative index passes the guard — `-5` on a
two-element list raises `IndexError` instead of returning the absent
value, and `-1` returns the last element instead of aborting. -/
theorem claim7_negative_index_counterexample :
    getKeyValue (.arr [.num 10, .num 20]) [.idx (-5)] none = .error .indexError ∧
    getKeyValue (.arr [.num 10, .num 20]) [.idx (-1)] none = .ok (.num 20) :=
  ⟨rfl, rfl⟩

/-- Claim C7 amended: for a non-negative integer key at or beyond the
array length, and for a field name missing from an object, the walk
aborts with the absent value and no error; when the walk completes, the
transform is applied exactly when the final value is truthy, and the
raw value is returned otherwise.  (Negative integer keys pass the
`key < len` guard: those in `[-len, -1]` index from the end and smaller
ones raise `IndexError`.) -/
theorem claim7_getKeyValue_amended :
    (∀ (xs : List JVal) (ks : List JKey) (f : Option (JVal → JVal)) (i : ℤ),
        0 ≤ i → (xs.length : ℤ) ≤ i →
        getKeyValue (.arr xs) (.idx i :: ks) f = .ok .null) ∧
    (∀ (kvs : List (String × JVal)) (s : String) (ks : List JKey)
        (f : Option (JVal → JVal)), (∀ p ∈ kvs, p.1 ≠ s) →
        getKeyValue (.obj kvs) (.name s :: ks) f = .ok .null) ∧
    (∀ (root : JVal) (ks : List JKey) (v : JVal) (f : JVal → JVal),
        walkKeys root ks = .ok v → truthy v = true →
        getKeyValue root ks (some f) = .ok (f v)) ∧
    (∀ (root : JVal) (ks : List JKey) (v : JVal) (f : JVal → JVal),
        walkKeys root ks = .ok v → truthy v = false →
        getKeyValue root ks (some f) = .ok v) := by
  have hwalk_idx : ∀ (xs : List JVal) (ks : List JKey) (i : ℤ),
      ¬(i < (xs.length : ℤ)) → walkKeys (.arr xs) (.idx i :: ks) = .ok .null := by
    intro xs ks i hn
    have hred : walkKeys (.arr xs) (.idx i :: ks) =
        if i < (xs.length : ℤ) then
          Except.bind (pyIndex (.arr xs) i) (fun v2 => walkKeys v2 ks)
        else .ok .null := rfl
    rw [hred, if_neg hn]
  have hwalk_name : ∀ (kvs : List (String × JVal)) (s : String) (ks : List JKey),
      (∀ p ∈ kvs, p.1 ≠ s) → walkKeys (.obj kvs) (.name s :: ks) = .ok .null := by
    intro kvs s ks hmem
    have hfalse : (kvs.any (fun p => p.1 = s)) = false := by
      simp only [List.any_eq_false]
      intro p hp
      simpa using hmem p hp
    have hred : walkKeys (.obj kvs) (.name s :: ks) =
        if (kvs.any (fun p => p.1 = s)) = true then
          Except.bind (pyGetField (.obj kvs) s) (fun v2 => walkKeys v2 ks)
        else .ok .null := rfl
    rw [hred, hfalse, if_neg Bool.false_ne_true]
  refine ⟨?_, ?_, ?_, ?_⟩
  · intro xs ks f i h0 hlen
    unfold getKeyValue
    rw [hwalk_idx xs ks i (not_lt.mpr hlen)]
    cases f <;> rfl
  · intro kvs s ks f hmem
    unfold getKeyValue
    rw [hwalk_name kvs s ks hmem]
    cases f <;> rfl
  · intro root ks v f hw ht
    unfold getKeyValue
    rw [hw]
    show (if truthy v = true then Except.ok (f v) else Except.ok v) = Except.ok (f v)
    rw [ht, if_pos rfl]
  · intro root ks v f hw ht
    unfold getKeyValue
    rw [hw]
    show (if truthy v = true then Except.ok (f v) else Except.ok v) = Except.ok v
    rw [ht, if_neg Bool.false_ne_true]

theorem claim7_getKeyValue_amended_witness :
    getKeyValue (.arr []) [.idx 0] none = .ok .null ∧
    getKeyValue (.obj [("a", .num 1)]) [.name "b"] none = .ok .null ∧
    getKeyValue (.num 5) [] (some (fun _ => .num 7)) = .ok (.num 7) ∧
    getKeyValue (.num 0) [] (some (fun _ => .num 7)) = .ok (.num 0) :=
  ⟨claim7_getKeyValue_amended.1 [] [] none 0 le_rfl (by simp),
   claim7_getKeyValue_amended.2.1 [("a", .num 1)] "b" [] none (by decide),
   claim7_getKeyValue_amended.2.2.1 (.num 5) [] (.num 5) (fun _ => .num 7) rfl
     (by with_unfolding_all decide),
   claim7_getKeyValue_amended.2.2.2 (.num 0) [] (.num 0) (fun _ => .num 7) rfl
     (by with_unfolding_all decide)⟩

/-- Every alert that survives assembly carries an `expires` timestamp
strictly greater than the assembly-time clock. -/
theorem buildAlerts_expires (now : ℤ) (cmap : List (String × String)) :
    ∀ (ps : List NOAAAlertProps) (out : List Alert),
      buildAlerts now cmap ps = .ok out →
      ∀ a ∈ out, ∃ e : ℤ, a.expires = some e ∧ now < e
  | [], out, h => by
      cases h
      intro a ha
      exact absurd ha (List.not_mem_nil a)
  | p :: ps, out, h => by
      unfold buildAlerts at h
      split at h
      · exact Except.noConfusion h
      · rename_i e hex
        split at h
        · rename_i hgt
          split at h
          · exact Except.noConfusion h
          · rename_i regions hr
            split at h
            · exact Except.noConfusion h
            · rename_i rest hb
              cases h
              intro a ha
              rcases List.mem_cons.mp ha with ha1 | ha2
              · subst ha1
                exact ⟨e, rfl, hgt⟩
              · exact buildAlerts_expires now cmap ps rest hb a ha2
        · rename_i hgt
          intro a ha
          exact buildAlerts_expires now cmap ps out h a ha

/-- Case analysis of the empty-alert stripping at `darksky-api.py`
lines 87–90. -/
theorem stripEmptyAlerts_eq (doc : Doc) :
    (doc.alerts = some [] ∧ stripEmptyAlerts doc = { doc with alerts := none }) ∨
    (doc.alerts ≠ some [] ∧ stripEmptyAlerts doc = doc) := by
  unfold stripEmptyAlerts
  cases doc.alerts with
  | none => exact Or.inr ⟨by simp, rfl⟩
  | some l => cases l with
    | nil => exact Or.inl ⟨rfl, rfl⟩
    | cons x xs => exact Or.inr ⟨by simp, rfl⟩

/-- Claim C8: no alert whose `expires` is strictly before assembly time
appears in the assembled list (only strictly later expiries are kept),
and the final document never carries `alerts` as an empty list — an
empty list is stripped to an absent key, and a present key implies the
list is non-empty. -/
theorem claim8_alert_filtering :
    (∀ (now : ℤ) (cmap : List (String × String)) (ps : List NOAAAlertProps)
        (out : List Alert), buildAlerts now cmap ps = .ok out →
        ∀ a ∈ out, ∃ e : ℤ, a.expires = some e ∧ now < e) ∧
    (∀ doc : Doc, (stripEmptyAlerts doc).alerts ≠ some []) ∧
    (∀ (doc : Doc) (l : List Alert), (stripEmptyAlerts doc).alerts = some l →
        doc.alerts = some l ∧ l ≠ []) := by
  refine ⟨buildAlerts_expires, ?_, ?_⟩
  · intro doc
    rcases stripEmptyAlerts_eq doc with ⟨h1, h2⟩ | ⟨h1, h2⟩
    · rw [h2]
      simp
    · rw [h2]
      exact h1
  · intro doc l h
    rcases stripEmptyAlerts_eq doc with ⟨h1, h2⟩ | ⟨h1, h2⟩
    · rw [h2] at h
      exact Option.noConfusion h
    · rw [h2] at h
      refine ⟨h, fun hl => h1 ?_⟩
      rw [h, hl]

theorem claim8_alert_filtering_witness :
    (∃ e : ℤ, wAlert.expires = some e ∧ (200 : ℤ) < e) ∧
    (stripEmptyAlerts { alerts := some [] }).alerts ≠ some [] :=
  ⟨claim8_alert_filtering.1 200 wCountyMap [wAlertProps] [wAlert]
      (by with_unfolding_all rfl) wAlert (List.mem_singleton.mpr rfl),
   claim8_alert_filtering.2.1 { alerts := some [] }⟩
